import Mathlib

/-!
Shallow embedding of `src/third_party/libtock-drivers/src/nfc.rs` (OpenSK
Feitian fork): the `NfcTag` userland binding for the Tock NFC driver.

The binding talks to the kernel through three syscall primitives
(`allow`, `subscribe`, `command`) keyed by a driver number and selector
numbers, and waits for kernel-delivered callbacks with `util::yieldk_for`
(a cooperative loop that yields until a condition on locally observable
cells holds).

The kernel is modelled as an oracle (`Kernel`): the result of each syscall,
and a schedule saying at which yield step each kind of callback is
delivered and with which arguments.  Each operation is embedded as a
function from the kernel oracle (plus a fuel bound for the yield loop) to
an outcome together with a trace of kernel-visible actions (grant
acquisitions and releases, command issuances), so that resource-balance
and ordering properties can be stated over the trace.
-/

namespace Nfc

/-- `DRIVER_NUMBER` from nfc.rs. -/
def DRIVER_NUMBER : Nat := 0x30003

namespace command_nr

def CHECK : Nat := 0

def TRANSMIT : Nat := 1

def RECEIVE : Nat := 2

def EMULATE : Nat := 3

def CONFIGURE : Nat := 4

def FRAMEDELAYMAX : Nat := 5

end command_nr

namespace subscribe_nr

def TRANSMIT : Nat := 1

def RECEIVE : Nat := 2

def SELECT : Nat := 3

end subscribe_nr

namespace allow_nr

def TRANSMIT : Nat := 1

def RECEIVE : Nat := 2

end allow_nr

/-- Kernel error code carried by a failed syscall (an `isize` return code in
libtock). -/
abbrev KernelError := Int

/-- `TockError` as produced by the `?` conversions in nfc.rs: the kernel
error of the failing step, tagged by which syscall failed. -/
inductive TockError
  | allow (e : KernelError)
  | subscribe (e : KernelError)
  | command (e : KernelError)
deriving DecidableEq

/-- `RecvOp` from nfc.rs: result code and received amount of a receive. -/
structure RecvOp where
  result_code : Nat
  recv_amount : Nat
deriving DecidableEq

/-- Kernel-visible actions performed by the binding: acquiring/releasing a
buffer lending (`allow` grant), acquiring/releasing a callback registration
(`subscribe` grant), and issuing a `command` syscall. -/
inductive KAction
  | allowAcq (driver num : Nat)
  | allowRel (driver num : Nat)
  | subAcq (driver num : Nat)
  | subRel (driver num : Nat)
  | cmd (driver num arg1 arg2 : Nat)
deriving DecidableEq

/-- Oracle for the simulated kernel: results of the three syscalls and the
callback delivery schedules (at yield step `i`, which callback fires and
with which arguments). -/
structure Kernel where
  allowRes : Nat → Nat → List Nat → Except KernelError Unit
  subscribeRes : Nat → Nat → Except KernelError Unit
  commandRes : Nat → Nat → Nat → Nat → Except KernelError Unit
  recvSched : Nat → Option (Nat × Nat)
  transSched : Nat → Option Nat
  selectSched : Nat → Bool

/-- Outcome of an embedded call: normal return, early error return,
`hang` when the yield loop never saw its completion cell populated within
the fuel bound (the Rust code would still be blocked), and `panic` when an
`unwrap` would fail. -/
inductive Outcome (α : Type)
  | ok (a : α)
  | err (e : TockError)
  | hang
  | panic
deriving DecidableEq

/-- The two completion cells of `receive`: `result_code` and `recv_amount`,
each `Cell::new(None)` initially. -/
structure RecvCells where
  result_code : Option Nat
  recv_amount : Option Nat
deriving DecidableEq

/-- First write of the receive callback: `result_code.set(Some(result))`. -/
def setResultCode (result : Nat) (s : RecvCells) : RecvCells :=
  ⟨some result, s.recv_amount⟩

/-- Second write of the receive callback: `recv_amount.set(Some(amount))`. -/
def setRecvAmount (amount : Nat) (s : RecvCells) : RecvCells :=
  ⟨s.result_code, some amount⟩

/-- The two-argument receive callback of nfc.rs: writes `result_code`
first, then `recv_amount`. -/
def recvCallback (result amount : Nat) (s : RecvCells) : RecvCells :=
  setRecvAmount amount (setResultCode result s)

/-- One yield step of the receive wait: deliver the scheduled callback for
step `i`, if any. -/
def recvYieldStep (sched : Nat → Option (Nat × Nat)) (i : Nat) (s : RecvCells) : RecvCells :=
  match sched i with
  | some (r, a) => recvCallback r a s
  | none => s

/-- `util::yieldk_for(|| recv_amount.get().is_some())` in `receive`:
check the condition; if it does not hold yet, yield (delivering the
scheduled callback for this step) and repeat.  Fuel-bounded; `none` means
the loop is still waiting after `fuel` yields. -/
def runRecvLoop (sched : Nat → Option (Nat × Nat)) : Nat → Nat → RecvCells → Option RecvCells
  | 0, _, s => if s.recv_amount.isSome then some s else none
  | fuel + 1, i, s =>
    if s.recv_amount.isSome then some s
    else runRecvLoop sched fuel (i + 1) (recvYieldStep sched i s)

/-- One yield step of the transmit wait: the one-argument transmit
callback `|result| result_code.set(Some(result))`, when scheduled. -/
def transYieldStep (sched : Nat → Option Nat) (i : Nat) (c : Option Nat) : Option Nat :=
  match sched i with
  | some r => some r
  | none => c

/-- `util::yieldk_for(|| result_code.get().is_some())` in `transmit`. -/
def runTransLoop (sched : Nat → Option Nat) : Nat → Nat → Option Nat → Option (Option Nat)
  | 0, _, c => if c.isSome then some c else none
  | fuel + 1, i, c =>
    if c.isSome then some c
    else runTransLoop sched fuel (i + 1) (transYieldStep sched i c)

/-- One yield step of the selected wait: the zero-argument callback
`|| is_selected.set(true)`, when scheduled. -/
def selYieldStep (sched : Nat → Bool) (i : Nat) (b : Bool) : Bool :=
  if sched i then true else b

/-- `util::yieldk_for(|| is_selected.get())` in `selected`. -/
def runSelLoop (sched : Nat → Bool) : Nat → Nat → Bool → Option Bool
  | 0, _, b => if b then some b else none
  | fuel + 1, i, b =>
    if b then some b
    else runSelLoop sched fuel (i + 1) (selYieldStep sched i b)

namespace NfcTag

/-- `NfcTag::setup`: issue the CHECK command, collapse the result to a
boolean. -/
def setup (k : Kernel) : Bool :=
  match k.commandRes DRIVER_NUMBER command_nr.CHECK 0 0 with
  | Except.ok _ => true
  | Except.error _ => false

/-- `NfcTag::emulate`: issue the EMULATE command with the flag as 1/0. -/
def emulate (k : Kernel) (enabled : Bool) : Bool :=
  match k.commandRes DRIVER_NUMBER command_nr.EMULATE (if enabled then 1 else 0) 0 with
  | Except.ok _ => true
  | Except.error _ => false

/-- `NfcTag::enable_emulation`. -/
def enable_emulation (k : Kernel) : Bool :=
  emulate k true

/-- `NfcTag::disable_emulation`. -/
def disable_emulation (k : Kernel) : Bool :=
  emulate k false

/-- `NfcTag::configure`: issue the CONFIGURE command with the tag type
(a `u8`, hence a value below 256; the `as usize` cast is the identity on
values). -/
def configure (k : Kernel) (tag_type : Nat) : Bool :=
  match k.commandRes DRIVER_NUMBER command_nr.CONFIGURE tag_type 0 with
  | Except.ok _ => true
  | Except.error _ => false

/-- `NfcTag::set_framedelaymax`: issue the FRAMEDELAYMAX command with the
delay (a `u32`; the `as usize` cast is the identity on values). -/
def set_framedelaymax (k : Kernel) (delay : Nat) : Bool :=
  match k.commandRes DRIVER_NUMBER command_nr.FRAMEDELAYMAX delay 0 with
  | Except.ok _ => true
  | Except.error _ => false

/-- `NfcTag::selected`: register the zero-argument SELECT callback; if
registration fails return `false`; otherwise yield until the local flag is
set, release the registration (implicit drop at scope exit) and return
`true`. -/
def selected (k : Kernel) (fuel : Nat) : Outcome Bool × List KAction :=
  match k.subscribeRes DRIVER_NUMBER subscribe_nr.SELECT with
  | Except.error _ => (Outcome.ok false, [])
  | Except.ok _ =>
    match runSelLoop k.selectSched fuel 0 false with
    | none => (Outcome.hang, [KAction.subAcq DRIVER_NUMBER subscribe_nr.SELECT])
    | some _ =>
      (Outcome.ok true,
       [KAction.subAcq DRIVER_NUMBER subscribe_nr.SELECT,
        KAction.subRel DRIVER_NUMBER subscribe_nr.SELECT])

/-- Trace of the `receive` success path: allow and subscribe acquired, the
RECEIVE command issued, then the explicit `mem::drop(subscription)`
followed by `mem::drop(result)`. -/
def receiveFullTrace : List KAction :=
  [KAction.allowAcq DRIVER_NUMBER allow_nr.RECEIVE,
   KAction.subAcq DRIVER_NUMBER subscribe_nr.RECEIVE,
   KAction.cmd DRIVER_NUMBER command_nr.RECEIVE 0 0,
   KAction.subRel DRIVER_NUMBER subscribe_nr.RECEIVE,
   KAction.allowRel DRIVER_NUMBER allow_nr.RECEIVE]

/-- `NfcTag::receive`: lend the 256-byte buffer (allow), register the
two-argument callback (subscribe), issue the RECEIVE command, yield until
`recv_amount` is populated, drop the subscription then the allow grant,
and return the recorded pair.  `?`-failures drop the grants acquired so
far (Rust drops locals in reverse declaration order, so the subscription
is released before the allow grant on every path). -/
def receive (k : Kernel) (fuel : Nat) (buf : List Nat) :
    Outcome RecvOp × List KAction :=
  match k.allowRes DRIVER_NUMBER allow_nr.RECEIVE buf with
  | Except.error e => (Outcome.err (TockError.allow e), [])
  | Except.ok _ =>
    match k.subscribeRes DRIVER_NUMBER subscribe_nr.RECEIVE with
    | Except.error e =>
        (Outcome.err (TockError.subscribe e),
         [KAction.allowAcq DRIVER_NUMBER allow_nr.RECEIVE,
          KAction.allowRel DRIVER_NUMBER allow_nr.RECEIVE])
    | Except.ok _ =>
      match k.commandRes DRIVER_NUMBER command_nr.RECEIVE 0 0 with
      | Except.error e =>
          (Outcome.err (TockError.command e),
           [KAction.allowAcq DRIVER_NUMBER allow_nr.RECEIVE,
            KAction.subAcq DRIVER_NUMBER subscribe_nr.RECEIVE,
            KAction.cmd DRIVER_NUMBER command_nr.RECEIVE 0 0,
            KAction.subRel DRIVER_NUMBER subscribe_nr.RECEIVE,
            KAction.allowRel DRIVER_NUMBER allow_nr.RECEIVE])
      | Except.ok _ =>
        match runRecvLoop k.recvSched fuel 0 ⟨none, none⟩ with
        | none =>
            (Outcome.hang,
             [KAction.allowAcq DRIVER_NUMBER allow_nr.RECEIVE,
              KAction.subAcq DRIVER_NUMBER subscribe_nr.RECEIVE,
              KAction.cmd DRIVER_NUMBER command_nr.RECEIVE 0 0])
        | some s =>
          match s.result_code, s.recv_amount with
          | some r, some a => (Outcome.ok ⟨r, a⟩, receiveFullTrace)
          | _, _ => (Outcome.panic, receiveFullTrace)

/-- Trace of the `transmit` success path. -/
def transmitFullTrace (amount : Nat) : List KAction :=
  [KAction.allowAcq DRIVER_NUMBER allow_nr.TRANSMIT,
   KAction.subAcq DRIVER_NUMBER subscribe_nr.TRANSMIT,
   KAction.cmd DRIVER_NUMBER command_nr.TRANSMIT amount 0,
   KAction.subRel DRIVER_NUMBER subscribe_nr.TRANSMIT,
   KAction.allowRel DRIVER_NUMBER allow_nr.TRANSMIT]

/-- `NfcTag::transmit`: lend the caller's buffer, register the
one-argument callback, issue the TRANSMIT command with the caller-supplied
`amount` unchanged, yield until `result_code` is populated, drop the
subscription then the allow grant, and return the recorded code. -/
def transmit (k : Kernel) (fuel : Nat) (buf : List Nat) (amount : Nat) :
    Outcome Nat × List KAction :=
  match k.allowRes DRIVER_NUMBER allow_nr.TRANSMIT buf with
  | Except.error e => (Outcome.err (TockError.allow e), [])
  | Except.ok _ =>
    match k.subscribeRes DRIVER_NUMBER subscribe_nr.TRANSMIT with
    | Except.error e =>
        (Outcome.err (TockError.subscribe e),
         [KAction.allowAcq DRIVER_NUMBER allow_nr.TRANSMIT,
          KAction.allowRel DRIVER_NUMBER allow_nr.TRANSMIT])
    | Except.ok _ =>
      match k.commandRes DRIVER_NUMBER command_nr.TRANSMIT amount 0 with
      | Except.error e =>
          (Outcome.err (TockError.command e),
           [KAction.allowAcq DRIVER_NUMBER allow_nr.TRANSMIT,
            KAction.subAcq DRIVER_NUMBER subscribe_nr.TRANSMIT,
            KAction.cmd DRIVER_NUMBER command_nr.TRANSMIT amount 0,
            KAction.subRel DRIVER_NUMBER subscribe_nr.TRANSMIT,
            KAction.allowRel DRIVER_NUMBER allow_nr.TRANSMIT])
      | Except.ok _ =>
        match runTransLoop k.transSched fuel 0 none with
        | none =>
            (Outcome.hang,
             [KAction.allowAcq DRIVER_NUMBER allow_nr.TRANSMIT,
              KAction.subAcq DRIVER_NUMBER subscribe_nr.TRANSMIT,
              KAction.cmd DRIVER_NUMBER command_nr.TRANSMIT amount 0])
        | some c =>
          match c with
          | some r => (Outcome.ok r, transmitFullTrace amount)
          | none => (Outcome.panic, transmitFullTrace amount)

end NfcTag

/-- Number of subscribe grants acquired in a trace. -/
def countSubAcq : List KAction → Nat
  | [] => 0
  | KAction.subAcq _ _ :: t => countSubAcq t + 1
  | _ :: t => countSubAcq t

/-- Number of subscribe grants released in a trace. -/
def countSubRel : List KAction → Nat
  | [] => 0
  | KAction.subRel _ _ :: t => countSubRel t + 1
  | _ :: t => countSubRel t

/-- Number of allow grants acquired in a trace. -/
def countAllowAcq : List KAction → Nat
  | [] => 0
  | KAction.allowAcq _ _ :: t => countAllowAcq t + 1
  | _ :: t => countAllowAcq t

/-- Number of allow grants released in a trace. -/
def countAllowRel : List KAction → Nat
  | [] => 0
  | KAction.allowRel _ _ :: t => countAllowRel t + 1
  | _ :: t => countAllowRel t

/-- Number of command syscalls issued in a trace. -/
def countCmd : List KAction → Nat
  | [] => 0
  | KAction.cmd _ _ _ _ :: t => countCmd t + 1
  | _ :: t => countCmd t

/-- A trace is balanced when every acquired grant has been released: the
simulated kernel's registration and lending counters are back to zero. -/
def balanced (t : List KAction) : Prop :=
  countSubAcq t = countSubRel t ∧ countAllowAcq t = countAllowRel t

instance (t : List KAction) : Decidable (balanced t) := by
  unfold balanced
  infer_instance

/-- Whether a trace contains an allow release. -/
def hasAllowRel : List KAction → Bool
  | [] => false
  | KAction.allowRel _ _ :: _ => true
  | _ :: t => hasAllowRel t

/-- The first grant release in the trace is a subscribe release and an
allow release follows it: the callback registration is released before the
buffer lending. -/
def subRelBeforeAllowRel : List KAction → Bool
  | [] => false
  | KAction.subRel _ _ :: t => hasAllowRel t
  | KAction.allowRel _ _ :: _ => false
  | _ :: t => subRelBeforeAllowRel t

/-! ### Yield-loop lemmas -/

lemma runRecvLoop_of_isSome (sched : Nat → Option (Nat × Nat)) (fuel i : Nat)
    (s : RecvCells) (h : s.recv_amount.isSome) :
    runRecvLoop sched fuel i s = some s := by
  cases fuel <;> simp [runRecvLoop, h]

lemma runRecvLoop_exit_populated (sched : Nat → Option (Nat × Nat)) :
    ∀ fuel i s s', runRecvLoop sched fuel i s = some s' → s'.recv_amount.isSome := by
  intro fuel
  induction fuel with
  | zero =>
    intro i s s' h
    simp only [runRecvLoop] at h
    by_cases hs : s.recv_amount.isSome
    · rw [if_pos hs] at h
      cases h
      exact hs
    · rw [if_neg hs] at h
      cases h
  | succ n ih =>
    intro i s s' h
    simp only [runRecvLoop] at h
    by_cases hs : s.recv_amount.isSome
    · rw [if_pos hs] at h
      cases h
      exact hs
    · rw [if_neg hs] at h
      exact ih (i + 1) _ s' h

lemma runRecvLoop_inv (sched : Nat → Option (Nat × Nat)) :
    ∀ fuel i s s', (s.recv_amount.isSome → s.result_code.isSome) →
      runRecvLoop sched fuel i s = some s' →
      (s'.recv_amount.isSome → s'.result_code.isSome) := by
  intro fuel
  induction fuel with
  | zero =>
    intro i s s' hinv h
    simp only [runRecvLoop] at h
    by_cases hs : s.recv_amount.isSome
    · rw [if_pos hs] at h
      cases h
      exact hinv
    · rw [if_neg hs] at h
      cases h
  | succ n ih =>
    intro i s s' hinv h
    simp only [runRecvLoop] at h
    by_cases hs : s.recv_amount.isSome
    · rw [if_pos hs] at h
      cases h
      exact hinv
    · rw [if_neg hs] at h
      refine ih (i + 1) _ s' ?_ h
      cases hd : sched i with
      | none => simpa [recvYieldStep, hd] using hinv
      | some p => simp [recvYieldStep, hd, recvCallback, setResultCode, setRecvAmount]

lemma runRecvLoop_delivers (sched : Nat → Option (Nat × Nat)) (r a : Nat) :
    ∀ j fuel i, (∀ t, t < j → sched (i + t) = none) → sched (i + j) = some (r, a) →
      j < fuel → runRecvLoop sched fuel i ⟨none, none⟩ = some ⟨some r, some a⟩ := by
  intro j
  induction j with
  | zero =>
    intro fuel i _ hdel hfuel
    obtain ⟨f, rfl⟩ : ∃ f, fuel = f + 1 := ⟨fuel - 1, by omega⟩
    simp only [Nat.add_zero] at hdel
    simp only [runRecvLoop, Option.isSome_none, Bool.false_eq_true, if_false]
    rw [show recvYieldStep sched i ⟨none, none⟩ = ⟨some r, some a⟩ by
      simp [recvYieldStep, hdel, recvCallback, setResultCode, setRecvAmount]]
    exact runRecvLoop_of_isSome sched f (i + 1) _ rfl
  | succ j ih =>
    intro fuel i hnone hdel hfuel
    obtain ⟨f, rfl⟩ : ∃ f, fuel = f + 1 := ⟨fuel - 1, by omega⟩
    have h0 : sched i = none := by
      have := hnone 0 (by omega)
      simpa using this
    simp only [runRecvLoop, Option.isSome_none, Bool.false_eq_true, if_false]
    rw [show recvYieldStep sched i ⟨none, none⟩ = ⟨none, none⟩ by
      simp [recvYieldStep, h0]]
    refine ih f (i + 1) ?_ ?_ (by omega)
    · intro t ht
      have := hnone (t + 1) (by omega)
      rw [show i + 1 + t = i + (t + 1) by omega]
      exact this
    · rw [show i + 1 + j = i + (j + 1) by omega]
      exact hdel

lemma runTransLoop_of_isSome (sched : Nat → Option Nat) (fuel i : Nat)
    (c : Option Nat) (h : c.isSome) :
    runTransLoop sched fuel i c = some c := by
  cases fuel <;> simp [runTransLoop, h]

lemma runTransLoop_exit_populated (sched : Nat → Option Nat) :
    ∀ fuel i c c', runTransLoop sched fuel i c = some c' → c'.isSome := by
  intro fuel
  induction fuel with
  | zero =>
    intro i c c' h
    simp only [runTransLoop] at h
    by_cases hc : c.isSome
    · rw [if_pos hc] at h
      cases h
      exact hc
    · rw [if_neg hc] at h
      cases h
  | succ n ih =>
    intro i c c' h
    simp only [runTransLoop] at h
    by_cases hc : c.isSome
    · rw [if_pos hc] at h
      cases h
      exact hc
    · rw [if_neg hc] at h
      exact ih (i + 1) _ c' h

lemma runTransLoop_delivers (sched : Nat → Option Nat) (r : Nat) :
    ∀ j fuel i, (∀ t, t < j → sched (i + t) = none) → sched (i + j) = some r →
      j < fuel → runTransLoop sched fuel i none = some (some r) := by
  intro j
  induction j with
  | zero =>
    intro fuel i _ hdel hfuel
    obtain ⟨f, rfl⟩ : ∃ f, fuel = f + 1 := ⟨fuel - 1, by omega⟩
    simp only [Nat.add_zero] at hdel
    simp only [runTransLoop, Option.isSome_none, Bool.false_eq_true, if_false]
    rw [show transYieldStep sched i none = some r by simp [transYieldStep, hdel]]
    exact runTransLoop_of_isSome sched f (i + 1) _ rfl
  | succ j ih =>
    intro fuel i hnone hdel hfuel
    obtain ⟨f, rfl⟩ : ∃ f, fuel = f + 1 := ⟨fuel - 1, by omega⟩
    have h0 : sched i = none := by
      have := hnone 0 (by omega)
      simpa using this
    simp only [runTransLoop, Option.isSome_none, Bool.false_eq_true, if_false]
    rw [show transYieldStep sched i none = none by simp [transYieldStep, h0]]
    refine ih f (i + 1) ?_ ?_ (by omega)
    · intro t ht
      have := hnone (t + 1) (by omega)
      rw [show i + 1 + t = i + (t + 1) by omega]
      exact this
    · rw [show i + 1 + j = i + (j + 1) by omega]
      exact hdel

lemma runSelLoop_exit_true (sched : Nat → Bool) :
    ∀ fuel i b b', runSelLoop sched fuel i b = some b' → b' = true := by
  intro fuel
  induction fuel with
  | zero =>
    intro i b b' h
    simp only [runSelLoop] at h
    by_cases hb : b = true
    · rw [if_pos hb] at h
      cases h
      exact hb
    · rw [if_neg hb] at h
      cases h
  | succ n ih =>
    intro i b b' h
    simp only [runSelLoop] at h
    by_cases hb : b = true
    · rw [if_pos hb] at h
      cases h
      exact hb
    · rw [if_neg hb] at h
      exact ih (i + 1) _ b' h

lemma runSelLoop_of_true (sched : Nat → Bool) (fuel i : Nat) :
    runSelLoop sched fuel i true = some true := by
  cases fuel <;> simp [runSelLoop]

lemma runSelLoop_delivers (sched : Nat → Bool) :
    ∀ j fuel i, (∀ t, t < j → sched (i + t) = false) → sched (i + j) = true →
      j < fuel → runSelLoop sched fuel i false = some true := by
  intro j
  induction j with
  | zero =>
    intro fuel i _ hdel hfuel
    obtain ⟨f, rfl⟩ : ∃ f, fuel = f + 1 := ⟨fuel - 1, by omega⟩
    simp only [Nat.add_zero] at hdel
    simp only [runSelLoop, Bool.false_eq_true, if_false]
    rw [show selYieldStep sched i false = true by simp [selYieldStep, hdel]]
    exact runSelLoop_of_true sched f (i + 1)
  | succ j ih =>
    intro fuel i hnone hdel hfuel
    obtain ⟨f, rfl⟩ : ∃ f, fuel = f + 1 := ⟨fuel - 1, by omega⟩
    have h0 : sched i = false := by
      have := hnone 0 (by omega)
      simpa using this
    simp only [runSelLoop, Bool.false_eq_true, if_false]
    rw [show selYieldStep sched i false = false by simp [selYieldStep, h0]]
    refine ih f (i + 1) ?_ ?_ (by omega)
    · intro t ht
      have := hnone (t + 1) (by omega)
      rw [show i + 1 + t = i + (t + 1) by omega]
      exact this
    · rw [show i + 1 + j = i + (j + 1) by omega]
      exact hdel

/-! ### Path-shape lemmas for the embedded operations -/

lemma receive_eq_allow_err (k : Kernel) (fuel : Nat) (buf : List Nat) (e : KernelError)
    (h : k.allowRes DRIVER_NUMBER allow_nr.RECEIVE buf = Except.error e) :
    NfcTag.receive k fuel buf = (Outcome.err (TockError.allow e), []) := by
  simp [NfcTag.receive, h]

lemma receive_eq_sub_err (k : Kernel) (fuel : Nat) (buf : List Nat) (e : KernelError)
    (hA : k.allowRes DRIVER_NUMBER allow_nr.RECEIVE buf = Except.ok ())
    (hS : k.subscribeRes DRIVER_NUMBER subscribe_nr.RECEIVE = Except.error e) :
    NfcTag.receive k fuel buf =
      (Outcome.err (TockError.subscribe e),
       [KAction.allowAcq DRIVER_NUMBER allow_nr.RECEIVE,
        KAction.allowRel DRIVER_NUMBER allow_nr.RECEIVE]) := by
  simp [NfcTag.receive, hA, hS]

lemma receive_eq_cmd_err (k : Kernel) (fuel : Nat) (buf : List Nat) (e : KernelError)
    (hA : k.allowRes DRIVER_NUMBER allow_nr.RECEIVE buf = Except.ok ())
    (hS : k.subscribeRes DRIVER_NUMBER subscribe_nr.RECEIVE = Except.ok ())
    (hC : k.commandRes DRIVER_NUMBER command_nr.RECEIVE 0 0 = Except.error e) :
    NfcTag.receive k fuel buf =
      (Outcome.err (TockError.command e),
       [KAction.allowAcq DRIVER_NUMBER allow_nr.RECEIVE,
        KAction.subAcq DRIVER_NUMBER subscribe_nr.RECEIVE,
        KAction.cmd DRIVER_NUMBER command_nr.RECEIVE 0 0,
        KAction.subRel DRIVER_NUMBER subscribe_nr.RECEIVE,
        KAction.allowRel DRIVER_NUMBER allow_nr.RECEIVE]) := by
  simp [NfcTag.receive, hA, hS, hC]

lemma receive_eq_hang (k : Kernel) (fuel : Nat) (buf : List Nat)
    (hA : k.allowRes DRIVER_NUMBER allow_nr.RECEIVE buf = Except.ok ())
    (hS : k.subscribeRes DRIVER_NUMBER subscribe_nr.RECEIVE = Except.ok ())
    (hC : k.commandRes DRIVER_NUMBER command_nr.RECEIVE 0 0 = Except.ok ())
    (hL : runRecvLoop k.recvSched fuel 0 ⟨none, none⟩ = none) :
    NfcTag.receive k fuel buf =
      (Outcome.hang,
       [KAction.allowAcq DRIVER_NUMBER allow_nr.RECEIVE,
        KAction.subAcq DRIVER_NUMBER subscribe_nr.RECEIVE,
        KAction.cmd DRIVER_NUMBER command_nr.RECEIVE 0 0]) := by
  simp [NfcTag.receive, hA, hS, hC, hL]

lemma receive_eq_ok (k : Kernel) (fuel : Nat) (buf : List Nat) (r a : Nat)
    (hA : k.allowRes DRIVER_NUMBER allow_nr.RECEIVE buf = Except.ok ())
    (hS : k.subscribeRes DRIVER_NUMBER subscribe_nr.RECEIVE = Except.ok ())
    (hC : k.commandRes DRIVER_NUMBER command_nr.RECEIVE 0 0 = Except.ok ())
    (hL : runRecvLoop k.recvSched fuel 0 ⟨none, none⟩ = some ⟨some r, some a⟩) :
    NfcTag.receive k fuel buf = (Outcome.ok ⟨r, a⟩, NfcTag.receiveFullTrace) := by
  simp [NfcTag.receive, hA, hS, hC, hL]

lemma receive_trace_of_loop_some (k : Kernel) (fuel : Nat) (buf : List Nat) (s : RecvCells)
    (hA : k.allowRes DRIVER_NUMBER allow_nr.RECEIVE buf = Except.ok ())
    (hS : k.subscribeRes DRIVER_NUMBER subscribe_nr.RECEIVE = Except.ok ())
    (hC : k.commandRes DRIVER_NUMBER command_nr.RECEIVE 0 0 = Except.ok ())
    (hL : runRecvLoop k.recvSched fuel 0 ⟨none, none⟩ = some s) :
    (NfcTag.receive k fuel buf).2 = NfcTag.receiveFullTrace := by
  cases hr : s.result_code <;> cases ha : s.recv_amount <;>
    simp [NfcTag.receive, hA, hS, hC, hL, hr, ha]

lemma transmit_eq_allow_err (k : Kernel) (fuel : Nat) (buf : List Nat) (amount : Nat)
    (e : KernelError)
    (h : k.allowRes DRIVER_NUMBER allow_nr.TRANSMIT buf = Except.error e) :
    NfcTag.transmit k fuel buf amount = (Outcome.err (TockError.allow e), []) := by
  simp [NfcTag.transmit, h]

lemma transmit_eq_sub_err (k : Kernel) (fuel : Nat) (buf : List Nat) (amount : Nat)
    (e : KernelError)
    (hA : k.allowRes DRIVER_NUMBER allow_nr.TRANSMIT buf = Except.ok ())
    (hS : k.subscribeRes DRIVER_NUMBER subscribe_nr.TRANSMIT = Except.error e) :
    NfcTag.transmit k fuel buf amount =
      (Outcome.err (TockError.subscribe e),
       [KAction.allowAcq DRIVER_NUMBER allow_nr.TRANSMIT,
        KAction.allowRel DRIVER_NUMBER allow_nr.TRANSMIT]) := by
  simp [NfcTag.transmit, hA, hS]

lemma transmit_eq_cmd_err (k : Kernel) (fuel : Nat) (buf : List Nat) (amount : Nat)
    (e : KernelError)
    (hA : k.allowRes DRIVER_NUMBER allow_nr.TRANSMIT buf = Except.ok ())
    (hS : k.subscribeRes DRIVER_NUMBER subscribe_nr.TRANSMIT = Except.ok ())
    (hC : k.commandRes DRIVER_NUMBER command_nr.TRANSMIT amount 0 = Except.error e) :
    NfcTag.transmit k fuel buf amount =
      (Outcome.err (TockError.command e),
       [KAction.allowAcq DRIVER_NUMBER allow_nr.TRANSMIT,
        KAction.subAcq DRIVER_NUMBER subscribe_nr.TRANSMIT,
        KAction.cmd DRIVER_NUMBER command_nr.TRANSMIT amount 0,
        KAction.subRel DRIVER_NUMBER subscribe_nr.TRANSMIT,
        KAction.allowRel DRIVER_NUMBER allow_nr.TRANSMIT]) := by
  simp [NfcTag.transmit, hA, hS, hC]

lemma transmit_eq_hang (k : Kernel) (fuel : Nat) (buf : List Nat) (amount : Nat)
    (hA : k.allowRes DRIVER_NUMBER allow_nr.TRANSMIT buf = Except.ok ())
    (hS : k.subscribeRes DRIVER_NUMBER subscribe_nr.TRANSMIT = Except.ok ())
    (hC : k.commandRes DRIVER_NUMBER command_nr.TRANSMIT amount 0 = Except.ok ())
    (hL : runTransLoop k.transSched fuel 0 none = none) :
    NfcTag.transmit k fuel buf amount =
      (Outcome.hang,
       [KAction.allowAcq DRIVER_NUMBER allow_nr.TRANSMIT,
        KAction.subAcq DRIVER_NUMBER subscribe_nr.TRANSMIT,
        KAction.cmd DRIVER_NUMBER command_nr.TRANSMIT amount 0]) := by
  simp [NfcTag.transmit, hA, hS, hC, hL]

lemma transmit_eq_ok (k : Kernel) (fuel : Nat) (buf : List Nat) (amount r : Nat)
    (hA : k.allowRes DRIVER_NUMBER allow_nr.TRANSMIT buf = Except.ok ())
    (hS : k.subscribeRes DRIVER_NUMBER subscribe_nr.TRANSMIT = Except.ok ())
    (hC : k.commandRes DRIVER_NUMBER command_nr.TRANSMIT amount 0 = Except.ok ())
    (hL : runTransLoop k.transSched fuel 0 none = some (some r)) :
    NfcTag.transmit k fuel buf amount = (Outcome.ok r, NfcTag.transmitFullTrace amount) := by
  simp [NfcTag.transmit, hA, hS, hC, hL]

lemma transmit_trace_of_loop_some (k : Kernel) (fuel : Nat) (buf : List Nat) (amount : Nat)
    (c : Option Nat)
    (hA : k.allowRes DRIVER_NUMBER allow_nr.TRANSMIT buf = Except.ok ())
    (hS : k.subscribeRes DRIVER_NUMBER subscribe_nr.TRANSMIT = Except.ok ())
    (hC : k.commandRes DRIVER_NUMBER command_nr.TRANSMIT amount 0 = Except.ok ())
    (hL : runTransLoop k.transSched fuel 0 none = some c) :
    (NfcTag.transmit k fuel buf amount).2 = NfcTag.transmitFullTrace amount := by
  cases c <;> simp [NfcTag.transmit, hA, hS, hC, hL]

lemma selected_eq_sub_err (k : Kernel) (fuel : Nat) (e : KernelError)
    (h : k.subscribeRes DRIVER_NUMBER subscribe_nr.SELECT = Except.error e) :
    NfcTag.selected k fuel = (Outcome.ok false, []) := by
  simp [NfcTag.selected, h]

lemma selected_eq_ok (k : Kernel) (fuel : Nat) (b : Bool)
    (hS : k.subscribeRes DRIVER_NUMBER subscribe_nr.SELECT = Except.ok ())
    (hL : runSelLoop k.selectSched fuel 0 false = some b) :
    NfcTag.selected k fuel =
      (Outcome.ok true,
       [KAction.subAcq DRIVER_NUMBER subscribe_nr.SELECT,
        KAction.subRel DRIVER_NUMBER subscribe_nr.SELECT]) := by
  simp [NfcTag.selected, hS, hL]

lemma selected_eq_hang (k : Kernel) (fuel : Nat)
    (hS : k.subscribeRes DRIVER_NUMBER subscribe_nr.SELECT = Except.ok ())
    (hL : runSelLoop k.selectSched fuel 0 false = none) :
    NfcTag.selected k fuel =
      (Outcome.hang, [KAction.subAcq DRIVER_NUMBER subscribe_nr.SELECT]) := by
  simp [NfcTag.selected, hS, hL]

lemma receive_completed_trace (k : Kernel) (fuel : Nat) (buf : List Nat)
    (h : (NfcTag.receive k fuel buf).1 ≠ Outcome.hang) :
    (NfcTag.receive k fuel buf).2 = [] ∨
    (NfcTag.receive k fuel buf).2 =
      [KAction.allowAcq DRIVER_NUMBER allow_nr.RECEIVE,
       KAction.allowRel DRIVER_NUMBER allow_nr.RECEIVE] ∨
    (NfcTag.receive k fuel buf).2 = NfcTag.receiveFullTrace := by
  rcases hA : k.allowRes DRIVER_NUMBER allow_nr.RECEIVE buf with e | u
  · rw [receive_eq_allow_err k fuel buf e hA]
    left
    rfl
  · cases u
    rcases hS : k.subscribeRes DRIVER_NUMBER subscribe_nr.RECEIVE with e | u
    · rw [receive_eq_sub_err k fuel buf e hA hS]
      right
      left
      rfl
    · cases u
      rcases hC : k.commandRes DRIVER_NUMBER command_nr.RECEIVE 0 0 with e | u
      · rw [receive_eq_cmd_err k fuel buf e hA hS hC]
        right
        right
        rfl
      · cases u
        rcases hL : runRecvLoop k.recvSched fuel 0 ⟨none, none⟩ with _ | s
        · rw [receive_eq_hang k fuel buf hA hS hC hL] at h
          simp at h
        · right
          right
          exact receive_trace_of_loop_some k fuel buf s hA hS hC hL

lemma receive_ok_trace (k : Kernel) (fuel : Nat) (buf : List Nat) (v : RecvOp)
    (h : (NfcTag.receive k fuel buf).1 = Outcome.ok v) :
    (NfcTag.receive k fuel buf).2 = NfcTag.receiveFullTrace := by
  rcases hA : k.allowRes DRIVER_NUMBER allow_nr.RECEIVE buf with e | u
  · rw [receive_eq_allow_err k fuel buf e hA] at h
    simp at h
  · cases u
    rcases hS : k.subscribeRes DRIVER_NUMBER subscribe_nr.RECEIVE with e | u
    · rw [receive_eq_sub_err k fuel buf e hA hS] at h
      simp at h
    · cases u
      rcases hC : k.commandRes DRIVER_NUMBER command_nr.RECEIVE 0 0 with e | u
      · rw [receive_eq_cmd_err k fuel buf e hA hS hC] at h
        simp at h
      · cases u
        rcases hL : runRecvLoop k.recvSched fuel 0 ⟨none, none⟩ with _ | s
        · rw [receive_eq_hang k fuel buf hA hS hC hL] at h
          simp at h
        · exact receive_trace_of_loop_some k fuel buf s hA hS hC hL

lemma transmit_completed_trace (k : Kernel) (fuel : Nat) (buf : List Nat) (amount : Nat)
    (h : (NfcTag.transmit k fuel buf amount).1 ≠ Outcome.hang) :
    (NfcTag.transmit k fuel buf amount).2 = [] ∨
    (NfcTag.transmit k fuel buf amount).2 =
      [KAction.allowAcq DRIVER_NUMBER allow_nr.TRANSMIT,
       KAction.allowRel DRIVER_NUMBER allow_nr.TRANSMIT] ∨
    (NfcTag.transmit k fuel buf amount).2 = NfcTag.transmitFullTrace amount := by
  rcases hA : k.allowRes DRIVER_NUMBER allow_nr.TRANSMIT buf with e | u
  · rw [transmit_eq_allow_err k fuel buf amount e hA]
    left
    rfl
  · cases u
    rcases hS : k.subscribeRes DRIVER_NUMBER subscribe_nr.TRANSMIT with e | u
    · rw [transmit_eq_sub_err k fuel buf amount e hA hS]
      right
      left
      rfl
    · cases u
      rcases hC : k.commandRes DRIVER_NUMBER command_nr.TRANSMIT amount 0 with e | u
      · rw [transmit_eq_cmd_err k fuel buf amount e hA hS hC]
        right
        right
        rfl
      · cases u
        rcases hL : runTransLoop k.transSched fuel 0 none with _ | c
        · rw [transmit_eq_hang k fuel buf amount hA hS hC hL] at h
          simp at h
        · right
          right
          exact transmit_trace_of_loop_some k fuel buf amount c hA hS hC hL

lemma transmit_ok_trace (k : Kernel) (fuel : Nat) (buf : List Nat) (amount r : Nat)
    (h : (NfcTag.transmit k fuel buf amount).1 = Outcome.ok r) :
    (NfcTag.transmit k fuel buf amount).2 = NfcTag.transmitFullTrace amount := by
  rcases hA : k.allowRes DRIVER_NUMBER allow_nr.TRANSMIT buf with e | u
  · rw [transmit_eq_allow_err k fuel buf amount e hA] at h
    simp at h
  · cases u
    rcases hS : k.subscribeRes DRIVER_NUMBER subscribe_nr.TRANSMIT with e | u
    · rw [transmit_eq_sub_err k fuel buf amount e hA hS] at h
      simp at h
    · cases u
      rcases hC : k.commandRes DRIVER_NUMBER command_nr.TRANSMIT amount 0 with e | u
      · rw [transmit_eq_cmd_err k fuel buf amount e hA hS hC] at h
        simp at h
      · cases u
        rcases hL : runTransLoop k.transSched fuel 0 none with _ | c
        · rw [transmit_eq_hang k fuel buf amount hA hS hC hL] at h
          simp at h
        · exact transmit_trace_of_loop_some k fuel buf amount c hA hS hC hL

/-! ### Concrete simulated kernels used by the witnesses -/

/-- A kernel that accepts every syscall and delivers every callback exactly
at yield step `j`: the receive callback with `(r, a)`, the transmit
callback with `r`, the select callback. -/
def kGood (j r a : Nat) : Kernel :=
  ⟨fun _ _ _ => Except.ok (),
   fun _ _ => Except.ok (),
   fun _ _ _ _ => Except.ok (),
   fun i => if i = j then some (r, a) else none,
   fun i => if i = j then some r else none,
   fun i => i == j⟩

/-- A kernel whose buffer-lending (allow) syscall always fails with code
`-3`; everything else is accepted and no callback is ever delivered. -/
def kAllowErr : Kernel :=
  ⟨fun _ _ _ => Except.error (-3),
   fun _ _ => Except.ok (),
   fun _ _ _ _ => Except.ok (),
   fun _ => none, fun _ => none, fun _ => false⟩

/-- A kernel whose callback-registration (subscribe) syscall always fails
with code `-5`. -/
def kSubErr : Kernel :=
  ⟨fun _ _ _ => Except.ok (),
   fun _ _ => Except.error (-5),
   fun _ _ _ _ => Except.ok (),
   fun _ => none, fun _ => none, fun _ => false⟩

/-- A kernel whose command syscall always fails with code `-7`. -/
def kCmdErr : Kernel :=
  ⟨fun _ _ _ => Except.ok (),
   fun _ _ => Except.ok (),
   fun _ _ _ _ => Except.error (-7),
   fun _ => none, fun _ => none, fun _ => false⟩

/-! ### Claim theorems -/

/-- C1: for every value (or value pair) delivered by the kernel callback,
the result-returning operations return exactly what the callback recorded:
`receive` returns the (result code, amount) pair set by the two-argument
receive callback (including when the amount is 0, since `r` and `a` range
over all values), and `transmit` returns the result code set by the
one-argument transmit callback. -/
theorem receive_transmit_return_exact_callback_values :
    (∀ (k : Kernel) (fuel : Nat) (buf : List Nat) (r a j : Nat),
      k.allowRes DRIVER_NUMBER allow_nr.RECEIVE buf = Except.ok () →
      k.subscribeRes DRIVER_NUMBER subscribe_nr.RECEIVE = Except.ok () →
      k.commandRes DRIVER_NUMBER command_nr.RECEIVE 0 0 = Except.ok () →
      (∀ t, t < j → k.recvSched t = none) → k.recvSched j = some (r, a) →
      j < fuel →
      (NfcTag.receive k fuel buf).1 = Outcome.ok ⟨r, a⟩) ∧
    (∀ (k : Kernel) (fuel : Nat) (buf : List Nat) (amount r j : Nat),
      k.allowRes DRIVER_NUMBER allow_nr.TRANSMIT buf = Except.ok () →
      k.subscribeRes DRIVER_NUMBER subscribe_nr.TRANSMIT = Except.ok () →
      k.commandRes DRIVER_NUMBER command_nr.TRANSMIT amount 0 = Except.ok () →
      (∀ t, t < j → k.transSched t = none) → k.transSched j = some r →
      j < fuel →
      (NfcTag.transmit k fuel buf amount).1 = Outcome.ok r) := by
  constructor
  · intro k fuel buf r a j hA hS hC hnone hdel hfuel
    have hnone' : ∀ t, t < j → k.recvSched (0 + t) = none := by
      intro t ht
      simpa using hnone t ht
    have hdel' : k.recvSched (0 + j) = some (r, a) := by simpa using hdel
    have hL := runRecvLoop_delivers k.recvSched r a j fuel 0 hnone' hdel' hfuel
    rw [receive_eq_ok k fuel buf r a hA hS hC hL]
  · intro k fuel buf amount r j hA hS hC hnone hdel hfuel
    have hnone' : ∀ t, t < j → k.transSched (0 + t) = none := by
      intro t ht
      simpa using hnone t ht
    have hdel' : k.transSched (0 + j) = some r := by simpa using hdel
    have hL := runTransLoop_delivers k.transSched r j fuel 0 hnone' hdel' hfuel
    rw [transmit_eq_ok k fuel buf amount r hA hS hC hL]

/-- C1 witness: a kernel delivering the receive callback with amount 0 at
yield step 2 and the transmit callback with value 4 at step 0. -/
theorem receive_transmit_return_exact_callback_values_witness :
    (NfcTag.receive (kGood 2 9 0) 5 []).1 = Outcome.ok ⟨9, 0⟩ ∧
    (NfcTag.transmit (kGood 0 4 0) 3 [1, 2] 7).1 = Outcome.ok 4 :=
  ⟨receive_transmit_return_exact_callback_values.1 (kGood 2 9 0) 5 [] 9 0 2
      rfl rfl rfl (by decide) (by decide) (by decide),
   receive_transmit_return_exact_callback_values.2 (kGood 0 4 0) 3 [1, 2] 7 4 0
      rfl rfl rfl (by decide) (by decide) (by decide)⟩

/-- C2: after any completed `receive` or `transmit` call (success or
failure), every acquired callback registration and buffer lending has been
released (the simulated kernel's counters are balanced); and on the
success path the callback registration is released before the buffer
lending. -/
theorem receive_transmit_release_all_grants :
    ∀ (k : Kernel) (fuel : Nat) (buf : List Nat) (amount : Nat),
      ((NfcTag.receive k fuel buf).1 ≠ Outcome.hang →
        balanced (NfcTag.receive k fuel buf).2) ∧
      ((NfcTag.transmit k fuel buf amount).1 ≠ Outcome.hang →
        balanced (NfcTag.transmit k fuel buf amount).2) ∧
      (∀ v, (NfcTag.receive k fuel buf).1 = Outcome.ok v →
        subRelBeforeAllowRel (NfcTag.receive k fuel buf).2 = true) ∧
      (∀ r, (NfcTag.transmit k fuel buf amount).1 = Outcome.ok r →
        subRelBeforeAllowRel (NfcTag.transmit k fuel buf amount).2 = true) := by
  intro k fuel buf amount
  refine ⟨?_, ?_, ?_, ?_⟩
  · intro h
    rcases receive_completed_trace k fuel buf h with ht | ht | ht <;> rw [ht] <;> decide
  · intro h
    rcases transmit_completed_trace k fuel buf amount h with ht | ht | ht <;> rw [ht] <;>
      simp [balanced, NfcTag.transmitFullTrace, countSubAcq, countSubRel,
        countAllowAcq, countAllowRel]
  · intro v h
    rw [receive_ok_trace k fuel buf v h]
    decide
  · intro r h
    rw [transmit_ok_trace k fuel buf amount r h]
    simp [subRelBeforeAllowRel, hasAllowRel, NfcTag.transmitFullTrace]

/-- C2 witness: on an all-accepting kernel, a completed receive has a
balanced trace and a successful transmit releases the registration before
the lending. -/
theorem receive_transmit_release_all_grants_witness :
    balanced (NfcTag.receive (kGood 0 9 4) 2 []).2 ∧
    subRelBeforeAllowRel (NfcTag.transmit (kGood 0 9 4) 2 [] 300).2 = true :=
  ⟨(receive_transmit_release_all_grants (kGood 0 9 4) 2 [] 300).1 (by decide),
   (receive_transmit_release_all_grants (kGood 0 9 4) 2 [] 300).2.2.2 9 (by decide)⟩

/-- C3: if the buffer-lending (allow) syscall in `receive` fails, no
callback registration is performed, no command is issued, and the lending
step's kernel error is returned, wrapped as the allow variant. -/
theorem receive_allow_failure_isolated :
    ∀ (k : Kernel) (fuel : Nat) (buf : List Nat) (e : KernelError),
      k.allowRes DRIVER_NUMBER allow_nr.RECEIVE buf = Except.error e →
      NfcTag.receive k fuel buf = (Outcome.err (TockError.allow e), []) ∧
      countSubAcq (NfcTag.receive k fuel buf).2 = 0 ∧
      countCmd (NfcTag.receive k fuel buf).2 = 0 := by
  intro k fuel buf e h
  have heq := receive_eq_allow_err k fuel buf e h
  refine ⟨heq, ?_, ?_⟩ <;> rw [heq] <;> rfl

/-- C3 witness: a kernel whose allow syscall fails with code `-3`. -/
theorem receive_allow_failure_isolated_witness :
    NfcTag.receive kAllowErr 3 [] = (Outcome.err (TockError.allow (-3)), []) ∧
    countSubAcq (NfcTag.receive kAllowErr 3 []).2 = 0 ∧
    countCmd (NfcTag.receive kAllowErr 3 []).2 = 0 :=
  receive_allow_failure_isolated kAllowErr 3 [] (-3) rfl

/-- C4: if buffer lending succeeds but callback registration fails in
`receive`, the lending is released before the call returns, no subscribe
grant is left and no command is issued, and the registration step's kernel
error is returned, wrapped as the subscribe variant. -/
theorem receive_subscribe_failure_releases_lending :
    ∀ (k : Kernel) (fuel : Nat) (buf : List Nat) (e : KernelError),
      k.allowRes DRIVER_NUMBER allow_nr.RECEIVE buf = Except.ok () →
      k.subscribeRes DRIVER_NUMBER subscribe_nr.RECEIVE = Except.error e →
      NfcTag.receive k fuel buf =
        (Outcome.err (TockError.subscribe e),
         [KAction.allowAcq DRIVER_NUMBER allow_nr.RECEIVE,
          KAction.allowRel DRIVER_NUMBER allow_nr.RECEIVE]) ∧
      countCmd (NfcTag.receive k fuel buf).2 = 0 ∧
      countSubAcq (NfcTag.receive k fuel buf).2 = 0 ∧
      countAllowAcq (NfcTag.receive k fuel buf).2 = 1 ∧
      countAllowRel (NfcTag.receive k fuel buf).2 = 1 := by
  intro k fuel buf e hA hS
  have heq := receive_eq_sub_err k fuel buf e hA hS
  refine ⟨heq, ?_, ?_, ?_, ?_⟩ <;> rw [heq] <;> rfl

/-- C4 witness: a kernel that accepts allow but rejects subscribe with
code `-5`. -/
theorem receive_subscribe_failure_releases_lending_witness :
    NfcTag.receive kSubErr 3 [] =
      (Outcome.err (TockError.subscribe (-5)),
       [KAction.allowAcq DRIVER_NUMBER allow_nr.RECEIVE,
        KAction.allowRel DRIVER_NUMBER allow_nr.RECEIVE]) ∧
    countCmd (NfcTag.receive kSubErr 3 []).2 = 0 ∧
    countSubAcq (NfcTag.receive kSubErr 3 []).2 = 0 ∧
    countAllowAcq (NfcTag.receive kSubErr 3 []).2 = 1 ∧
    countAllowRel (NfcTag.receive kSubErr 3 []).2 = 1 :=
  receive_subscribe_failure_releases_lending kSubErr 3 [] (-5) rfl rfl

/-- C5: the wait loops of `receive` and `transmit` return only when the
corresponding completion cell is populated, and a callback whose values
are already queued at the very first yield step (i.e. delivered before the
command's acknowledgment is observed by the wait loop) is still observed
correctly. -/
theorem wait_loops_block_until_populated_and_order_independent :
    (∀ (sched : Nat → Option (Nat × Nat)) (fuel i : Nat) (s s' : RecvCells),
      runRecvLoop sched fuel i s = some s' → s'.recv_amount.isSome = true) ∧
    (∀ (sched : Nat → Option Nat) (fuel i : Nat) (c c' : Option Nat),
      runTransLoop sched fuel i c = some c' → c'.isSome = true) ∧
    (∀ (k : Kernel) (fuel : Nat) (buf : List Nat) (r a : Nat),
      k.allowRes DRIVER_NUMBER allow_nr.RECEIVE buf = Except.ok () →
      k.subscribeRes DRIVER_NUMBER subscribe_nr.RECEIVE = Except.ok () →
      k.commandRes DRIVER_NUMBER command_nr.RECEIVE 0 0 = Except.ok () →
      k.recvSched 0 = some (r, a) → 0 < fuel →
      (NfcTag.receive k fuel buf).1 = Outcome.ok ⟨r, a⟩) ∧
    (∀ (k : Kernel) (fuel : Nat) (buf : List Nat) (amount r : Nat),
      k.allowRes DRIVER_NUMBER allow_nr.TRANSMIT buf = Except.ok () →
      k.subscribeRes DRIVER_NUMBER subscribe_nr.TRANSMIT = Except.ok () →
      k.commandRes DRIVER_NUMBER command_nr.TRANSMIT amount 0 = Except.ok () →
      k.transSched 0 = some r → 0 < fuel →
      (NfcTag.transmit k fuel buf amount).1 = Outcome.ok r) := by
  refine ⟨?_, ?_, ?_, ?_⟩
  · intro sched fuel i s s' h
    exact runRecvLoop_exit_populated sched fuel i s s' h
  · intro sched fuel i c c' h
    exact runTransLoop_exit_populated sched fuel i c c' h
  · intro k fuel buf r a hA hS hC hdel hfuel
    have hL := runRecvLoop_delivers k.recvSched r a 0 fuel 0
      (by intro t ht; omega) (by simpa using hdel) hfuel
    rw [receive_eq_ok k fuel buf r a hA hS hC hL]
  · intro k fuel buf amount r hA hS hC hdel hfuel
    have hL := runTransLoop_delivers k.transSched r 0 fuel 0
      (by intro t ht; omega) (by simpa using hdel) hfuel
    rw [transmit_eq_ok k fuel buf amount r hA hS hC hL]

/-- C5 witness: with the callback queued at yield step 0 (fired before any
waiting), receive and transmit still observe the recorded values. -/
theorem wait_loops_block_until_populated_and_order_independent_witness :
    (NfcTag.receive (kGood 0 5 17) 1 []).1 = Outcome.ok ⟨5, 17⟩ ∧
    (NfcTag.transmit (kGood 0 5 17) 1 [] 9).1 = Outcome.ok 5 :=
  ⟨wait_loops_block_until_populated_and_order_independent.2.2.1 (kGood 0 5 17) 1 [] 5 17
      rfl rfl rfl (by decide) (by decide),
   wait_loops_block_until_populated_and_order_independent.2.2.2 (kGood 0 5 17) 1 [] 9 5
      rfl rfl rfl (by decide) (by decide)⟩

/-- C6: each boolean-returning operation returns `true` exactly when the
kernel accepts the underlying command and `false` on any kernel failure,
whatever the error code was (no error detail survives). -/
theorem bool_ops_reflect_kernel_acceptance :
    ∀ (k : Kernel) (tag_type delay : Nat),
      (NfcTag.setup k = true ↔
        k.commandRes DRIVER_NUMBER command_nr.CHECK 0 0 = Except.ok ()) ∧
      (NfcTag.enable_emulation k = true ↔
        k.commandRes DRIVER_NUMBER command_nr.EMULATE 1 0 = Except.ok ()) ∧
      (NfcTag.disable_emulation k = true ↔
        k.commandRes DRIVER_NUMBER command_nr.EMULATE 0 0 = Except.ok ()) ∧
      (NfcTag.configure k tag_type = true ↔
        k.commandRes DRIVER_NUMBER command_nr.CONFIGURE tag_type 0 = Except.ok ()) ∧
      (NfcTag.set_framedelaymax k delay = true ↔
        k.commandRes DRIVER_NUMBER command_nr.FRAMEDELAYMAX delay 0 = Except.ok ()) := by
  intro k tag_type delay
  refine ⟨?_, ?_, ?_, ?_, ?_⟩
  · cases h : k.commandRes DRIVER_NUMBER command_nr.CHECK 0 0 with
    | error e => simp [NfcTag.setup, h]
    | ok u => cases u; simp [NfcTag.setup, h]
  · cases h : k.commandRes DRIVER_NUMBER command_nr.EMULATE 1 0 with
    | error e => simp [NfcTag.enable_emulation, NfcTag.emulate, h]
    | ok u => cases u; simp [NfcTag.enable_emulation, NfcTag.emulate, h]
  · cases h : k.commandRes DRIVER_NUMBER command_nr.EMULATE 0 0 with
    | error e => simp [NfcTag.disable_emulation, NfcTag.emulate, h]
    | ok u => cases u; simp [NfcTag.disable_emulation, NfcTag.emulate, h]
  · cases h : k.commandRes DRIVER_NUMBER command_nr.CONFIGURE tag_type 0 with
    | error e => simp [NfcTag.configure, h]
    | ok u => cases u; simp [NfcTag.configure, h]
  · cases h : k.commandRes DRIVER_NUMBER command_nr.FRAMEDELAYMAX delay 0 with
    | error e => simp [NfcTag.set_framedelaymax, h]
    | ok u => cases u; simp [NfcTag.set_framedelaymax, h]

/-- C6 witness: an accepting kernel makes setup and enable_emulation
return `true`; a rejecting kernel makes configure return `false`. -/
theorem bool_ops_reflect_kernel_acceptance_witness :
    NfcTag.setup (kGood 0 0 0) = true ∧
    NfcTag.enable_emulation (kGood 0 0 0) = true ∧
    NfcTag.configure kCmdErr 5 = false :=
  ⟨(bool_ops_reflect_kernel_acceptance (kGood 0 0 0) 5 6).1.mpr rfl,
   (bool_ops_reflect_kernel_acceptance (kGood 0 0 0) 5 6).2.1.mpr rfl,
   by
    have h := (bool_ops_reflect_kernel_acceptance kCmdErr 5 6).2.2.2.1
    cases hc : NfcTag.configure kCmdErr 5
    · rfl
    · exact absurd (h.mp hc) (by simp [kCmdErr])⟩

/-- C7: `selected()` registers the zero-argument SELECT callback; if the
registration fails it returns `false` with no wait and no grant ever
acquired; the wait loop only exits with the local flag set; and on a
delivered callback it blocks until the flag is set, releases the
registration and returns `true`. -/
theorem selected_registration_wait_and_release :
    ∀ (k : Kernel) (fuel : Nat),
      (∀ e, k.subscribeRes DRIVER_NUMBER subscribe_nr.SELECT = Except.error e →
        NfcTag.selected k fuel = (Outcome.ok false, [])) ∧
      (∀ (sched : Nat → Bool) (fuel' i : Nat) (b b' : Bool),
        runSelLoop sched fuel' i b = some b' → b' = true) ∧
      (∀ j, k.subscribeRes DRIVER_NUMBER subscribe_nr.SELECT = Except.ok () →
        (∀ t, t < j → k.selectSched t = false) → k.selectSched j = true →
        j < fuel →
        NfcTag.selected k fuel =
          (Outcome.ok true,
           [KAction.subAcq DRIVER_NUMBER subscribe_nr.SELECT,
            KAction.subRel DRIVER_NUMBER subscribe_nr.SELECT])) := by
  intro k fuel
  refine ⟨?_, ?_, ?_⟩
  · intro e h
    exact selected_eq_sub_err k fuel e h
  · intro sched fuel' i b b' h
    exact runSelLoop_exit_true sched fuel' i b b' h
  · intro j hS hnone hdel hfuel
    have hnone' : ∀ t, t < j → k.selectSched (0 + t) = false := by
      intro t ht
      simpa using hnone t ht
    have hdel' : k.selectSched (0 + j) = true := by simpa using hdel
    have hL := runSelLoop_delivers k.selectSched j fuel 0 hnone' hdel' hfuel
    exact selected_eq_ok k fuel true hS hL

/-- C7 witness: a rejecting kernel gives `false` immediately; a kernel
whose select callback fires at step 1 gives `true` with the registration
acquired and released. -/
theorem selected_registration_wait_and_release_witness :
    NfcTag.selected kSubErr 4 = (Outcome.ok false, []) ∧
    NfcTag.selected (kGood 1 0 0) 4 =
      (Outcome.ok true,
       [KAction.subAcq DRIVER_NUMBER subscribe_nr.SELECT,
        KAction.subRel DRIVER_NUMBER subscribe_nr.SELECT]) :=
  ⟨(selected_registration_wait_and_release kSubErr 4).1 (-5) rfl,
   (selected_registration_wait_and_release (kGood 1 0 0) 4).2.2 1
      rfl (by decide) (by decide) (by decide)⟩

/-- C8: the selector tables are exactly the specified numbers (commands:
check=0, transmit=1, receive=2, emulate=3, configure=4, framedelaymax=5;
subscriptions: transmit=1, receive=2, selected=3; buffer sharing:
transmit=1, receive=2), and every public operation addresses the kernel
under the selector of its name. -/
theorem selector_tables_match_spec :
    (command_nr.CHECK = 0 ∧ command_nr.TRANSMIT = 1 ∧ command_nr.RECEIVE = 2 ∧
     command_nr.EMULATE = 3 ∧ command_nr.CONFIGURE = 4 ∧
     command_nr.FRAMEDELAYMAX = 5) ∧
    (subscribe_nr.TRANSMIT = 1 ∧ subscribe_nr.RECEIVE = 2 ∧
     subscribe_nr.SELECT = 3) ∧
    (allow_nr.TRANSMIT = 1 ∧ allow_nr.RECEIVE = 2) ∧
    (∀ k : Kernel, NfcTag.setup k = true ↔
      k.commandRes DRIVER_NUMBER 0 0 0 = Except.ok ()) ∧
    (∀ (k : Kernel) (b : Bool), NfcTag.emulate k b = true ↔
      k.commandRes DRIVER_NUMBER 3 (if b then 1 else 0) 0 = Except.ok ()) ∧
    (∀ (k : Kernel) (t : Nat), NfcTag.configure k t = true ↔
      k.commandRes DRIVER_NUMBER 4 t 0 = Except.ok ()) ∧
    (∀ (k : Kernel) (d : Nat), NfcTag.set_framedelaymax k d = true ↔
      k.commandRes DRIVER_NUMBER 5 d 0 = Except.ok ()) ∧
    (∀ (k : Kernel) (fuel : Nat) (buf : List Nat) (v : RecvOp),
      (NfcTag.receive k fuel buf).1 = Outcome.ok v →
      (NfcTag.receive k fuel buf).2 =
        [KAction.allowAcq DRIVER_NUMBER 2, KAction.subAcq DRIVER_NUMBER 2,
         KAction.cmd DRIVER_NUMBER 2 0 0, KAction.subRel DRIVER_NUMBER 2,
         KAction.allowRel DRIVER_NUMBER 2]) ∧
    (∀ (k : Kernel) (fuel : Nat) (buf : List Nat) (amount r : Nat),
      (NfcTag.transmit k fuel buf amount).1 = Outcome.ok r →
      (NfcTag.transmit k fuel buf amount).2 =
        [KAction.allowAcq DRIVER_NUMBER 1, KAction.subAcq DRIVER_NUMBER 1,
         KAction.cmd DRIVER_NUMBER 1 amount 0, KAction.subRel DRIVER_NUMBER 1,
         KAction.allowRel DRIVER_NUMBER 1]) ∧
    (∀ (k : Kernel) (fuel : Nat),
      (NfcTag.selected k fuel).1 = Outcome.ok true →
      (NfcTag.selected k fuel).2 =
        [KAction.subAcq DRIVER_NUMBER 3, KAction.subRel DRIVER_NUMBER 3]) := by
  refine ⟨⟨rfl, rfl, rfl, rfl, rfl, rfl⟩, ⟨rfl, rfl, rfl⟩, ⟨rfl, rfl⟩,
    ?_, ?_, ?_, ?_, ?_, ?_, ?_⟩
  · intro k
    cases h : k.commandRes DRIVER_NUMBER 0 0 0 with
    | error e => simp [NfcTag.setup, command_nr.CHECK, h]
    | ok u => cases u; simp [NfcTag.setup, command_nr.CHECK, h]
  · intro k b
    cases h : k.commandRes DRIVER_NUMBER 3 (if b then 1 else 0) 0 with
    | error e => simp [NfcTag.emulate, command_nr.EMULATE, h]
    | ok u => cases u; simp [NfcTag.emulate, command_nr.EMULATE, h]
  · intro k t
    cases h : k.commandRes DRIVER_NUMBER 4 t 0 with
    | error e => simp [NfcTag.configure, command_nr.CONFIGURE, h]
    | ok u => cases u; simp [NfcTag.configure, command_nr.CONFIGURE, h]
  · intro k d
    cases h : k.commandRes DRIVER_NUMBER 5 d 0 with
    | error e => simp [NfcTag.set_framedelaymax, command_nr.FRAMEDELAYMAX, h]
    | ok u => cases u; simp [NfcTag.set_framedelaymax, command_nr.FRAMEDELAYMAX, h]
  · intro k fuel buf v h
    rw [receive_ok_trace k fuel buf v h]
    rfl
  · intro k fuel buf amount r h
    rw [transmit_ok_trace k fuel buf amount r h]
    rfl
  · intro k fuel h
    rcases hS : k.subscribeRes DRIVER_NUMBER subscribe_nr.SELECT with e | u
    · rw [selected_eq_sub_err k fuel e hS] at h
      simp at h
    · cases u
      rcases hL : runSelLoop k.selectSched fuel 0 false with _ | b
      · rw [selected_eq_hang k fuel hS hL] at h
        simp at h
      · rw [selected_eq_ok k fuel b hS hL]
        rfl

/-- C8 witness: the receive selector is 2, and concrete successful calls
address the kernel under the numeric selectors of their names. -/
theorem selector_tables_match_spec_witness :
    command_nr.RECEIVE = 2 ∧
    (NfcTag.receive (kGood 0 9 4) 1 []).2 =
      [KAction.allowAcq DRIVER_NUMBER 2, KAction.subAcq DRIVER_NUMBER 2,
       KAction.cmd DRIVER_NUMBER 2 0 0, KAction.subRel DRIVER_NUMBER 2,
       KAction.allowRel DRIVER_NUMBER 2] ∧
    (NfcTag.selected (kGood 0 9 4) 1).2 =
      [KAction.subAcq DRIVER_NUMBER 3, KAction.subRel DRIVER_NUMBER 3] :=
  ⟨selector_tables_match_spec.1.2.2.1,
   selector_tables_match_spec.2.2.2.2.2.2.2.1 (kGood 0 9 4) 1 [] ⟨9, 4⟩ (by decide),
   selector_tables_match_spec.2.2.2.2.2.2.2.2.2 (kGood 0 9 4) 1 (by decide)⟩

/-- C9: whenever the receive wait loop exits (starting from both cells
empty), the `result_code` cell is populated along with `recv_amount`,
because the callback writes `result_code` before `recv_amount`; hence the
two unwraps that build the returned `RecvOp` can never panic. -/
theorem receive_unwraps_cannot_panic :
    (∀ (sched : Nat → Option (Nat × Nat)) (fuel i : Nat) (s' : RecvCells),
      runRecvLoop sched fuel i ⟨none, none⟩ = some s' →
      s'.result_code.isSome = true ∧ s'.recv_amount.isSome = true) ∧
    (∀ (k : Kernel) (fuel : Nat) (buf : List Nat),
      (NfcTag.receive k fuel buf).1 ≠ Outcome.panic) := by
  constructor
  · intro sched fuel i s' h
    have h2 := runRecvLoop_exit_populated sched fuel i ⟨none, none⟩ s' h
    have h1 := runRecvLoop_inv sched fuel i ⟨none, none⟩ s'
      (fun hx => absurd hx (by decide)) h
    exact ⟨h1 h2, h2⟩
  · intro k fuel buf
    rcases hA : k.allowRes DRIVER_NUMBER allow_nr.RECEIVE buf with e | u
    · rw [receive_eq_allow_err k fuel buf e hA]
      simp
    · cases u
      rcases hS : k.subscribeRes DRIVER_NUMBER subscribe_nr.RECEIVE with e | u
      · rw [receive_eq_sub_err k fuel buf e hA hS]
        simp
      · cases u
        rcases hC : k.commandRes DRIVER_NUMBER command_nr.RECEIVE 0 0 with e | u
        · rw [receive_eq_cmd_err k fuel buf e hA hS hC]
          simp
        · cases u
          rcases hL : runRecvLoop k.recvSched fuel 0 ⟨none, none⟩ with _ | s
          · rw [receive_eq_hang k fuel buf hA hS hC hL]
            simp
          · have h2 := runRecvLoop_exit_populated k.recvSched fuel 0 ⟨none, none⟩ s hL
            have h1 := runRecvLoop_inv k.recvSched fuel 0 ⟨none, none⟩ s
              (fun hx => absurd hx (by decide)) hL h2
            obtain ⟨r, hr⟩ := Option.isSome_iff_exists.mp h1
            obtain ⟨a, ha⟩ := Option.isSome_iff_exists.mp h2
            have hs : s = ⟨some r, some a⟩ := by
              cases s
              simp_all
            rw [hs] at hL
            rw [receive_eq_ok k fuel buf r a hA hS hC hL]
            simp

/-- C9 witness: a loop exit observed on a concrete schedule has both cells
populated, and a concrete receive never evaluates to the panic outcome. -/
theorem receive_unwraps_cannot_panic_witness :
    ((⟨some 3, some 8⟩ : RecvCells).result_code.isSome = true ∧
     (⟨some 3, some 8⟩ : RecvCells).recv_amount.isSome = true) ∧
    (NfcTag.receive (kGood 0 3 8) 1 []).1 ≠ Outcome.panic :=
  ⟨receive_unwraps_cannot_panic.1 (kGood 0 3 8).recvSched 1 0 ⟨some 3, some 8⟩ (by decide),
   receive_unwraps_cannot_panic.2 (kGood 0 3 8) 1 []⟩

/-- C10: `transmit` hands the caller-supplied `amount` to the TRANSMIT
command unchanged, for every buffer and every amount (no validation of
`amount` against the buffer's length): whenever lending and registration
succeed, the trace starts with the two acquisitions followed by the
command carrying exactly `amount`. -/
theorem transmit_passes_amount_unchanged :
    ∀ (k : Kernel) (fuel : Nat) (buf : List Nat) (amount : Nat),
      k.allowRes DRIVER_NUMBER allow_nr.TRANSMIT buf = Except.ok () →
      k.subscribeRes DRIVER_NUMBER subscribe_nr.TRANSMIT = Except.ok () →
      ∃ rest, (NfcTag.transmit k fuel buf amount).2 =
        KAction.allowAcq DRIVER_NUMBER allow_nr.TRANSMIT ::
        KAction.subAcq DRIVER_NUMBER subscribe_nr.TRANSMIT ::
        KAction.cmd DRIVER_NUMBER command_nr.TRANSMIT amount 0 :: rest := by
  intro k fuel buf amount hA hS
  rcases hC : k.commandRes DRIVER_NUMBER command_nr.TRANSMIT amount 0 with e | u
  · refine ⟨[KAction.subRel DRIVER_NUMBER subscribe_nr.TRANSMIT,
             KAction.allowRel DRIVER_NUMBER allow_nr.TRANSMIT], ?_⟩
    rw [transmit_eq_cmd_err k fuel buf amount e hA hS hC]
  · cases u
    rcases hL : runTransLoop k.transSched fuel 0 none with _ | c
    · refine ⟨[], ?_⟩
      rw [transmit_eq_hang k fuel buf amount hA hS hC hL]
    · refine ⟨[KAction.subRel DRIVER_NUMBER subscribe_nr.TRANSMIT,
               KAction.allowRel DRIVER_NUMBER allow_nr.TRANSMIT], ?_⟩
      rw [transmit_trace_of_loop_some k fuel buf amount c hA hS hC hL]
      rfl

/-- C10 witness: an amount of 500 with an empty buffer (so the amount
exceeds the buffer length) still reaches the command unchanged. -/
theorem transmit_passes_amount_unchanged_witness :
    ∃ rest, (NfcTag.transmit (kGood 0 6 0) 1 [] 500).2 =
      KAction.allowAcq DRIVER_NUMBER allow_nr.TRANSMIT ::
      KAction.subAcq DRIVER_NUMBER subscribe_nr.TRANSMIT ::
      KAction.cmd DRIVER_NUMBER command_nr.TRANSMIT 500 0 :: rest :=
  transmit_passes_amount_unchanged (kGood 0 6 0) 1 [] 500 rfl rfl

end Nfc
